import Mathlib

/-!
Verification of the picogl.js GPU-state-tracking core against its
natural-language specification.  The JavaScript sources are shallowly
embedded: each wrapper class becomes a Lean structure, each method a pure
function returning the updated state together with a trace of the native
GL calls it issued, and JavaScript quirks (undefined property lookups,
sparse arrays, thrown TypeErrors) are modelled explicitly.
-/

set_option autoImplicit false

namespace PicoGL

/-! ## GL type enumerations

The uniform-buffer layout switch in the UniformBuffer constructor
enumerates exactly these WebGL type constants; the inductive mirrors the
case labels of that switch. -/

inductive GLType where
  | FLOAT | INT | UNSIGNED_INT | BOOL
  | FLOAT_VEC2 | INT_VEC2 | UNSIGNED_INT_VEC2 | BOOL_VEC2
  | FLOAT_VEC3 | INT_VEC3 | UNSIGNED_INT_VEC3 | BOOL_VEC3
  | FLOAT_VEC4 | INT_VEC4 | UNSIGNED_INT_VEC4 | BOOL_VEC4
  | FLOAT_MAT2 | FLOAT_MAT2x3 | FLOAT_MAT2x4
  | FLOAT_MAT3 | FLOAT_MAT3x2 | FLOAT_MAT3x4
  | FLOAT_MAT4 | FLOAT_MAT4x2 | FLOAT_MAT4x3
  deriving DecidableEq, Repr

/-- The base element types recorded in `UniformBuffer.types`
(CONSTANTS.FLOAT, CONSTANTS.INT, CONSTANTS.UNSIGNED_INT). -/
inductive BaseType where
  | FLOAT | INT | UNSIGNED_INT
  deriving DecidableEq, Repr

/-! ## UniformBuffer layout engine (uniform-buffer.js) -/

/-- JavaScript lookup of `this.type` inside the UniformBuffer constructor:
the class never assigns a `type` property, so the access yields
`undefined` (modelled as `none`), and every strict comparison of it with a
type constant is false. -/
def ubSelfType : Option GLType := none

/-- One iteration of the layout loop in the UniformBuffer constructor:
given the running word cursor `size` and the declared type, return
`((offset, itemSize, baseType), newSize)`, mirroring the switch statement
case group by case group. -/
def ubItem (size : Nat) (t : GLType) : (Nat × Nat × BaseType) × Nat :=
  match t with
  | .FLOAT | .INT | .UNSIGNED_INT | .BOOL =>
      let base := if t = GLType.INT then BaseType.INT
        else if ubSelfType = some GLType.UNSIGNED_INT then BaseType.UNSIGNED_INT
        else BaseType.FLOAT
      ((size, 1, base), size + 1)
  | .FLOAT_VEC2 | .INT_VEC2 | .UNSIGNED_INT_VEC2 | .BOOL_VEC2 =>
      let size := size + size % 2
      let base := if t = GLType.INT_VEC2 then BaseType.INT
        else if ubSelfType = some GLType.UNSIGNED_INT_VEC2 then BaseType.UNSIGNED_INT
        else BaseType.FLOAT
      ((size, 2, base), size + 2)
  | .FLOAT_VEC3 | .INT_VEC3 | .UNSIGNED_INT_VEC3 | .BOOL_VEC3
  | .FLOAT_VEC4 | .INT_VEC4 | .UNSIGNED_INT_VEC4 | .BOOL_VEC4 =>
      let size := size + (4 - size % 4) % 4
      let base := if t = GLType.INT_VEC4 ∨ t = GLType.INT_VEC3 then BaseType.INT
        else if ubSelfType = some GLType.UNSIGNED_INT_VEC4 ∨
            ubSelfType = some GLType.UNSIGNED_INT_VEC3 then BaseType.UNSIGNED_INT
        else BaseType.FLOAT
      ((size, 4, base), size + 4)
  | .FLOAT_MAT2 | .FLOAT_MAT2x3 | .FLOAT_MAT2x4 =>
      let size := size + (4 - size % 4) % 4
      ((size, 8, BaseType.FLOAT), size + 8)
  | .FLOAT_MAT3 | .FLOAT_MAT3x2 | .FLOAT_MAT3x4 =>
      let size := size + (4 - size % 4) % 4
      ((size, 12, BaseType.FLOAT), size + 12)
  | .FLOAT_MAT4 | .FLOAT_MAT4x2 | .FLOAT_MAT4x3 =>
      let size := size + (4 - size % 4) % 4
      ((size, 16, BaseType.FLOAT), size + 16)

/-- The layout loop of the UniformBuffer constructor: walk the declared
layout once, collecting the `offsets`, `sizes` and `types` arrays and the
final word cursor. -/
def ubLoop (size : Nat) : List GLType → Nat × List Nat × List Nat × List BaseType
  | [] => (size, [], [], [])
  | t :: rest =>
      let entry := ubItem size t
      let next := ubLoop entry.2 rest
      (next.1, entry.1.1 :: next.2.1, entry.1.2.1 :: next.2.2.1,
        entry.1.2.2 :: next.2.2.2)

/-- The state of a UniformBuffer wrapper: the layout arrays computed by
the constructor, the native buffer handle, and the binding base
back-reference into the DeviceStateCache (`-1` indicates unbound). -/
structure UniformBuffer where
  offsets : List Nat
  sizes : List Nat
  types : List BaseType
  size : Nat
  buffer : Option Nat
  currentBase : Int
  deriving DecidableEq, Repr

/-- Embedding of the UniformBuffer constructor up to (but not including)
the initial `restore()` call: run the layout loop from cursor 0, pad the
final size up to a multiple of 4 words, start with a null buffer handle
and `currentBase = -1`. -/
def mkUniformBuffer (layout : List GLType) : UniformBuffer :=
  let (size, offsets, sizes, types) := ubLoop 0 layout
  { offsets := offsets
    sizes := sizes
    types := types
    size := size + (4 - size % 4) % 4
    buffer := none
    currentBase := -1 }

/-- Description of the store write performed by `UniformBuffer.set`: the
typed view it selects, the word offset it writes at, and whether it is a
single direct assignment or an element-by-element copy. -/
structure UBWrite where
  view : BaseType
  offset : Nat
  single : Bool
  deriving DecidableEq, Repr

/-- Embedding of `UniformBuffer.set(index, value)`: select the data view
named by `types[index]` and write at `offsets[index]`; the value is
assigned directly when `sizes[index] === 1` and copied element-wise
otherwise.  Out-of-range indices yield `none` (the JavaScript code would
read `undefined` from the layout arrays). -/
def UniformBuffer.set (ub : UniformBuffer) (index : Nat) : Option UBWrite :=
  match ub.types.get? index, ub.offsets.get? index, ub.sizes.get? index with
  | some t, some o, some s => some { view := t, offset := o, single := s = 1 }
  | _, _, _ => none

/-! ## Spec-side layout descriptions (for comparison with the source) -/

/-- Round `size` up to the next multiple of `a` (the running-cursor
alignment step of the layout algorithm in the spec). -/
def alignTo (a size : Nat) : Nat := size + (a - size % a) % a

/-- Base alignment demanded by the spec for each declared type: 1-word
items need no padding, 2-word items round up to an even word, 3-or-4-word
items and matrices round up to a multiple of 4 words. -/
def specBaseAlign : GLType → Nat
  | .FLOAT | .INT | .UNSIGNED_INT | .BOOL => 1
  | .FLOAT_VEC2 | .INT_VEC2 | .UNSIGNED_INT_VEC2 | .BOOL_VEC2 => 2
  | _ => 4

/-- Word count by which the claim (C2, as stated) advances the cursor:
vectors advance by exactly their component count (2, 3 or 4) and matrices
by their column count times 4; scalars by 1. -/
def claimAdvanceC2 : GLType → Nat
  | .FLOAT | .INT | .UNSIGNED_INT | .BOOL => 1
  | .FLOAT_VEC2 | .INT_VEC2 | .UNSIGNED_INT_VEC2 | .BOOL_VEC2 => 2
  | .FLOAT_VEC3 | .INT_VEC3 | .UNSIGNED_INT_VEC3 | .BOOL_VEC3 => 3
  | .FLOAT_VEC4 | .INT_VEC4 | .UNSIGNED_INT_VEC4 | .BOOL_VEC4 => 4
  | .FLOAT_MAT2 | .FLOAT_MAT2x3 | .FLOAT_MAT2x4 => 8
  | .FLOAT_MAT3 | .FLOAT_MAT3x2 | .FLOAT_MAT3x4 => 12
  | .FLOAT_MAT4 | .FLOAT_MAT4x2 | .FLOAT_MAT4x3 => 16

/-- Offset list the claim C2, as stated, predicts: each entry is placed
at the aligned running cursor, which then advances by
`claimAdvanceC2`. -/
def claimOffsetsC2 (size : Nat) : List GLType → List Nat
  | [] => []
  | t :: rest =>
      let offset := alignTo (specBaseAlign t) size
      offset :: claimOffsetsC2 (offset + claimAdvanceC2 t) rest

/-- Word count by which the amended claim advances the cursor: as
`claimAdvanceC2`, except that 3-component vectors are treated as
4-component and advance by 4 words. -/
def amendedAdvanceC2 : GLType → Nat
  | .FLOAT | .INT | .UNSIGNED_INT | .BOOL => 1
  | .FLOAT_VEC2 | .INT_VEC2 | .UNSIGNED_INT_VEC2 | .BOOL_VEC2 => 2
  | .FLOAT_VEC3 | .INT_VEC3 | .UNSIGNED_INT_VEC3 | .BOOL_VEC3 => 4
  | .FLOAT_VEC4 | .INT_VEC4 | .UNSIGNED_INT_VEC4 | .BOOL_VEC4 => 4
  | .FLOAT_MAT2 | .FLOAT_MAT2x3 | .FLOAT_MAT2x4 => 8
  | .FLOAT_MAT3 | .FLOAT_MAT3x2 | .FLOAT_MAT3x4 => 12
  | .FLOAT_MAT4 | .FLOAT_MAT4x2 | .FLOAT_MAT4x3 => 16

/-- Cursor and offset list predicted by the amended claim: each entry is
placed at the aligned running cursor, which then advances by
`amendedAdvanceC2`. -/
def amendedLoopC2 (size : Nat) : List GLType → Nat × List Nat
  | [] => (size, [])
  | t :: rest =>
      let offset := alignTo (specBaseAlign t) size
      let next := amendedLoopC2 (offset + amendedAdvanceC2 t) rest
      (next.1, offset :: next.2)

/-! ## JavaScript values, runtime errors, native GL calls -/

/-- A JavaScript array cell: `undefined`, `null`, or a proper value.
Used for the sparse arrays of the Framebuffer attachment lists, where the
code distinguishes freshly extended cells (undefined), gap placeholders
(null) and real entries. -/
inductive JsVal (α : Type) where
  | undef
  | null
  | val (a : α)
  deriving DecidableEq, Repr

/-- Errors thrown by the JavaScript runtime itself (as opposed to
diagnostics written to the console). -/
inductive JsError where
  | typeError
  deriving DecidableEq, Repr

/-- Native calls into the GL device capability surface.  Handles are
`Option Nat` (`none` is the JavaScript `null` handle). -/
inductive GLCall where
  | useProgram (handle : Option Nat)
  | uniformUpload (handle : Nat) (value : Int)
  | bindVertexArray (handle : Option Nat)
  | bindBuffer (target : Nat) (handle : Option Nat)
  | bindBufferBase (target : Nat) (base : Nat) (handle : Option Nat)
  | bindTransformFeedback (handle : Option Nat)
  | activeTexture (unit : Nat)
  | bindTexture (binding : Nat) (handle : Option Nat)
  | bindFramebuffer (target : Nat) (handle : Option Nat)
  | framebufferTexture2D (attachEnum target : Nat) (handle : Option Nat)
  | framebufferTextureLayer (attachEnum : Nat) (handle : Option Nat) (layer : Nat)
  | framebufferRenderbuffer (attachEnum : Nat) (handle : Option Nat)
  | drawBuffers (enums : List (JsVal Nat))
  | deleteProgram (handle : Nat)
  | deleteVertexArray (handle : Nat)
  | deleteTexture (handle : Nat)
  | deleteBuffer (handle : Nat)
  | deleteFramebuffer (handle : Nat)
  | deleteTransformFeedback (handle : Nat)
  | createVertexArray (handle : Nat)
  | beginQuery (target : Nat)
  | endQuery (target : Nat)
  deriving DecidableEq, Repr

/-- Outcome of a method call that may throw: the error (if any), the
native GL calls issued before completing or throwing, and the console
diagnostics written. -/
structure JsResult where
  thrown : Option JsError
  calls : List GLCall
  console : List String
  deriving DecidableEq, Repr

/-- WebGL enum constants used by the embedded methods (values as in the
WebGL2 specification, mirrored by constants.js). -/
def NONE : Nat := 0
def TEXTURE_2D : Nat := 3553
def TEXTURE0 : Nat := 33984
def ELEMENT_ARRAY_BUFFER : Nat := 34963
def UNIFORM_BUFFER : Nat := 35345
def READ_FRAMEBUFFER : Nat := 36008
def DRAW_FRAMEBUFFER : Nat := 36009
def COLOR_ATTACHMENT0 : Nat := 36064
def DEPTH_ATTACHMENT : Nat := 36096
def RENDERBUFFER : Nat := 36161
def TRANSFORM_FEEDBACK : Nat := 36386
def TRANSFORM_FEEDBACK_BUFFER : Nat := 35982

/-! ## Program (program.js)

Wrapper identity is modelled by a numeric `id`; the DeviceStateCache
stores ids where the JavaScript stores object references. -/

structure Program where
  id : Nat
  program : Option Nat
  uniforms : List (String × Nat)
  deriving DecidableEq, Repr

/-- Embedding of `Program.uniform(name, value)`: the source is
`this.uniforms[name].set(value)` with no guard, so a name that is not an
active uniform reads `undefined` from the map and the `.set` access
throws a TypeError; nothing is written to the console on either path. -/
def Program.uniform (p : Program) (name : String) (value : Int) : JsResult :=
  match p.uniforms.lookup name with
  | some handle =>
      { thrown := none, calls := [GLCall.uniformUpload handle value], console := [] }
  | none =>
      { thrown := some JsError.typeError, calls := [], console := [] }

/-! ## DeviceStateCache (the App state object, app.js) -/

/-- The tracked GL state owned by the App: each slot records the id of
the wrapper currently bound there (`none` when empty).  The fixed-size
arrays of the source are lists indexed by texture unit and uniform-buffer
base. -/
structure AppState where
  program : Option Nat
  vertexArray : Option Nat
  transformFeedback : Option Nat
  activeTexture : Int
  textures : List (Option Nat)
  uniformBuffers : List (Option Nat)
  drawFramebuffer : Option Nat
  readFramebuffer : Option Nat
  deriving DecidableEq, Repr

/-- JavaScript read `array[u]` on a cache array: an out-of-range index
yields `undefined`, which behaves like an empty slot. -/
def cacheGet (l : List (Option Nat)) (u : Nat) : Option Nat :=
  (l.getD u none)

/-- Pointwise update of a function-represented collection of wrapper
objects (mutation of one JavaScript object in the heap). -/
def updFn {κ α : Type} [DecidableEq κ] (f : κ → α) (k : κ) (a : α) : κ → α :=
  fun j => if j = k then a else f j

/-! ## Program bind/delete (program.js) -/

/-- Embedding of `Program.bind()`: skip the native call when the cache
already records this program as active. -/
def Program.bind (p : Program) (st : AppState) : AppState × List GLCall :=
  if st.program = some p.id then (st, [])
  else ({ st with program := some p.id }, [GLCall.useProgram p.program])

/-- Embedding of `Program.delete()`: release the handle and clear the
cache slot (issuing `useProgram(null)`) when this program was the bound
one; a no-op when the handle is already null. -/
def Program.delete (p : Program) (st : AppState) : Program × AppState × List GLCall :=
  match p.program with
  | some handle =>
      let p := { p with program := none }
      if st.program = some p.id then
        (p, { st with program := none },
          [GLCall.deleteProgram handle, GLCall.useProgram none])
      else (p, st, [GLCall.deleteProgram handle])
  | none => (p, st, [])

/-! ## VertexArray (vertex-array.js) and VertexBuffer (vertex-buffer.js) -/

structure VertexArray where
  id : Nat
  vertexArray : Option Nat
  numElements : Nat
  indexType : Option Nat
  instancedBuffers : Nat
  indexed : Bool
  numInstances : Nat
  deriving DecidableEq, Repr

/-- The VertexBuffer fields consumed by `VertexArray.indexBuffer`: the
native handle, the represented item count and the stored data type. -/
structure VertexBuffer where
  buffer : Option Nat
  numItems : Nat
  type : Nat
  deriving DecidableEq, Repr

/-- Embedding of `VertexArray.bind()`. -/
def VertexArray.bind (va : VertexArray) (st : AppState) : AppState × List GLCall :=
  if st.vertexArray = some va.id then (st, [])
  else ({ st with vertexArray := some va.id }, [GLCall.bindVertexArray va.vertexArray])

/-- Embedding of `VertexArray.delete()`. -/
def VertexArray.delete (va : VertexArray) (st : AppState) :
    VertexArray × AppState × List GLCall :=
  match va.vertexArray with
  | some handle =>
      let va := { va with vertexArray := none }
      if st.vertexArray = some va.id then
        (va, { st with vertexArray := none },
          [GLCall.deleteVertexArray handle, GLCall.bindVertexArray none])
      else (va, st, [GLCall.deleteVertexArray handle])
  | none => (va, st, [])

/-- Embedding of `VertexArray.indexBuffer(vertexBuffer)`: allocate the
native vertex array on first use (`newHandle` is the handle returned by
`gl.createVertexArray()`), bind, bind the element array buffer, then set
`numElements = numItems * 3`, record the index type and mark the array
indexed. -/
def VertexArray.indexBuffer (va : VertexArray) (st : AppState) (vertexBuffer : VertexBuffer)
    (newHandle : Nat) : VertexArray × AppState × List GLCall :=
  let createCalls :=
    if va.vertexArray = none then [GLCall.createVertexArray newHandle] else []
  let va := if va.vertexArray = none then { va with vertexArray := some newHandle } else va
  let bound := VertexArray.bind va st
  ({ va with
      numElements := vertexBuffer.numItems * 3
      indexType := some vertexBuffer.type
      indexed := true },
    bound.1,
    createCalls ++ bound.2 ++ [GLCall.bindBuffer ELEMENT_ARRAY_BUFFER vertexBuffer.buffer])

/-! ## TransformFeedback (transform-feedback.js) -/

/-- The TransformFeedback wrapper; `angleBugBuffers` stores the native
handles of the buffers recorded for the ANGLE-workaround rebinds. -/
structure TransformFeedback where
  id : Nat
  transformFeedback : Option Nat
  angleBugBuffers : List (Option Nat)
  deriving DecidableEq, Repr

/-- Embedding of `TransformFeedback.bind()`: when not already bound,
bind natively and re-issue a `bindBufferBase` for every recorded
ANGLE-workaround buffer. -/
def TransformFeedback.bind (tf : TransformFeedback) (st : AppState) :
    AppState × List GLCall :=
  if st.transformFeedback = some tf.id then (st, [])
  else
    ({ st with transformFeedback := some tf.id },
      GLCall.bindTransformFeedback tf.transformFeedback ::
        tf.angleBugBuffers.enum.map
          (fun pair => GLCall.bindBufferBase TRANSFORM_FEEDBACK_BUFFER pair.1 pair.2))

/-- Embedding of `TransformFeedback.delete()`. -/
def TransformFeedback.delete (tf : TransformFeedback) (st : AppState) :
    TransformFeedback × AppState × List GLCall :=
  match tf.transformFeedback with
  | some handle =>
      let tf := { tf with transformFeedback := none }
      if st.transformFeedback = some tf.id then
        (tf, { st with transformFeedback := none },
          [GLCall.deleteTransformFeedback handle, GLCall.bindTransformFeedback none])
      else (tf, st, [GLCall.deleteTransformFeedback handle])
  | none => (tf, st, [])

/-! ## Texture (texture.js) and the wrapper world

Texture and UniformBuffer binds mutate the wrapper they evict from the
slot, so those methods act on a world mapping wrapper ids to wrapper
records (the JavaScript heap) together with the shared App state. -/

structure Texture where
  texture : Option Nat
  currentUnit : Int
  binding : Nat
  deriving DecidableEq, Repr

structure World where
  texs : Nat → Texture
  ubufs : Nat → UniformBuffer
  state : AppState

/-- Embedding of `Texture.bind(unit)` for the texture with id `i`: a
no-op when the cache already has this texture at `unit`; otherwise evict
the current occupant (resetting its `currentUnit` to -1), clear the
previous slot of this texture, issue the native calls and record the new
binding on both sides. -/
def Texture.bind (w : World) (i : Nat) (unit : Nat) : World × List GLCall :=
  let self := w.texs i
  let currentTexture := cacheGet w.state.textures unit
  if currentTexture = some i then (w, [])
  else
    let texs := match currentTexture with
      | some j => updFn w.texs j { w.texs j with currentUnit := -1 }
      | none => w.texs
    let textures :=
      if self.currentUnit ≠ -1 then
        w.state.textures.set self.currentUnit.toNat none
      else w.state.textures
    let textures := textures.set unit (some i)
    let texs := updFn texs i { self with currentUnit := (unit : Int) }
    ({ w with texs := texs, state := { w.state with textures := textures } },
      [GLCall.activeTexture (TEXTURE0 + unit), GLCall.bindTexture self.binding self.texture])

/-- Embedding of `Texture.delete()` for the texture with id `i`: release
the handle; when the `currentUnit` back-reference of the texture is set
and the cache slot there indeed holds this texture, clear the slot and
reset `currentUnit` to -1. -/
def Texture.delete (w : World) (i : Nat) : World × List GLCall :=
  let self := w.texs i
  match self.texture with
  | some handle =>
      let self := { self with texture := none }
      if self.currentUnit ≠ -1 ∧ cacheGet w.state.textures self.currentUnit.toNat = some i then
        ({ w with
            texs := updFn w.texs i { self with currentUnit := -1 }
            state := { w.state with
              textures := w.state.textures.set self.currentUnit.toNat none } },
          [GLCall.deleteTexture handle])
      else ({ w with texs := updFn w.texs i self }, [GLCall.deleteTexture handle])
  | none => (w, [])

/-! ## UniformBuffer bind/delete (uniform-buffer.js) -/

/-- Embedding of `UniformBuffer.bind(base)` for the uniform buffer with
id `i`: a no-op when already bound at `base`; otherwise evict the current
occupant (resetting its `currentBase`), clear the previous base of this
buffer, issue the native call and record the new binding on both sides. -/
def UniformBuffer.bind (w : World) (i : Nat) (base : Nat) : World × List GLCall :=
  let self := w.ubufs i
  let currentBuffer := cacheGet w.state.uniformBuffers base
  if currentBuffer = some i then (w, [])
  else
    let ubufs := match currentBuffer with
      | some j => updFn w.ubufs j { w.ubufs j with currentBase := -1 }
      | none => w.ubufs
    let ubuffers :=
      if self.currentBase ≠ -1 then
        w.state.uniformBuffers.set self.currentBase.toNat none
      else w.state.uniformBuffers
    let ubuffers := ubuffers.set base (some i)
    let ubufs := updFn ubufs i { self with currentBase := (base : Int) }
    ({ w with ubufs := ubufs, state := { w.state with uniformBuffers := ubuffers } },
      [GLCall.bindBufferBase UNIFORM_BUFFER base self.buffer])

/-- Embedding of `UniformBuffer.delete()` for the uniform buffer with id
`i`: release the handle and clear the cache slot this buffer occupies.
Unlike `Texture.delete`, the source does not reset `currentBase` to -1 —
the wrapper keeps its stale base. -/
def UniformBuffer.delete (w : World) (i : Nat) : World × List GLCall :=
  let self := w.ubufs i
  match self.buffer with
  | some handle =>
      let self := { self with buffer := none }
      if self.currentBase ≠ -1 ∧
          cacheGet w.state.uniformBuffers self.currentBase.toNat = some i then
        ({ w with
            ubufs := updFn w.ubufs i self
            state := { w.state with
              uniformBuffers := w.state.uniformBuffers.set self.currentBase.toNat none } },
          [GLCall.deleteBuffer handle])
      else ({ w with ubufs := updFn w.ubufs i self }, [GLCall.deleteBuffer handle])
  | none => (w, [])

/-! ## Framebuffer (framebuffer.js) -/

/-- The attachment argument of `colorTarget`/`depthTarget`: its native
handle (the `texture` or `renderbuffer` property), whether it is a
Renderbuffer (the `instanceof` test), its `is3D` flag and dimensions. -/
structure Attachment where
  handle : Option Nat
  isRenderbuffer : Bool
  is3D : Bool
  width : Nat
  height : Nat
  deriving DecidableEq, Repr

structure Framebuffer where
  id : Nat
  framebuffer : Option Nat
  numColorTargets : Nat
  colorAttachments : List (JsVal Attachment)
  colorAttachmentEnums : List (JsVal Nat)
  colorAttachmentTargets : List (JsVal Nat)
  depthAttachment : JsVal Attachment
  width : Nat
  height : Nat
  deriving DecidableEq, Repr

/-- JavaScript `array.length = n`: truncate, or extend with `undefined`
cells. -/
def setLength {α : Type} (l : List (JsVal α)) (n : Nat) : List (JsVal α) :=
  l.take n ++ List.replicate (n - l.length) JsVal.undef

/-- The gap-filling for-loop of `colorTarget`: write `v` into `count`
consecutive cells starting at index `start`. -/
def fillFrom {α : Type} (v : JsVal α) : Nat → Nat → List (JsVal α) → List (JsVal α)
  | 0, _, l => l
  | k + 1, start, l => fillFrom v k (start + 1) (l.set start v)

/-- Embedding of `Framebuffer.bindAndCaptureState()`: bind this
framebuffer for draw without touching the cache, unless it is already the
tracked draw framebuffer.  `current` is the tracked draw framebuffer
object at call time (which the method captures and returns). -/
def Framebuffer.bindAndCaptureState (fb : Framebuffer) (current : Option Framebuffer) :
    List GLCall :=
  if current.map Framebuffer.id = some fb.id then []
  else [GLCall.bindFramebuffer DRAW_FRAMEBUFFER fb.framebuffer]

/-- Embedding of `Framebuffer.restoreState(framebuffer)`: rebind the
captured framebuffer (or null) unless it is this framebuffer. -/
def Framebuffer.restoreState (fb : Framebuffer) (captured : Option Framebuffer) :
    List GLCall :=
  if captured.map Framebuffer.id = some fb.id then []
  else [GLCall.bindFramebuffer DRAW_FRAMEBUFFER (captured.bind Framebuffer.framebuffer)]

/-- Embedding of `Framebuffer.colorTarget(index, attachment, target)`:
grow the three attachment arrays when `index` is beyond the current
count, filling the gap cells with NONE / null / 0; record the attachment
at `index`; then, with the framebuffer momentarily bound, issue the
type-appropriate native attach call followed by a `drawBuffers` call
declaring the full enum list, and restore the previous binding.
`targetArg = none` selects the default target expression of the source. -/
def Framebuffer.colorTarget (fb : Framebuffer) (index : Nat) (attachment : Attachment)
    (targetArg : Option Nat) (current : Option Framebuffer) :
    Framebuffer × List GLCall :=
  let target := targetArg.getD (if attachment.is3D then 0 else TEXTURE_2D)
  let fb :=
    if fb.numColorTargets ≤ index then
      let numColorTargets := index + 1
      let count := (numColorTargets - 1) - fb.numColorTargets
      { fb with
        numColorTargets := numColorTargets
        colorAttachmentEnums :=
          fillFrom (JsVal.val NONE) count fb.numColorTargets
            (setLength fb.colorAttachmentEnums numColorTargets)
        colorAttachments :=
          fillFrom JsVal.null count fb.numColorTargets
            (setLength fb.colorAttachments numColorTargets)
        colorAttachmentTargets :=
          fillFrom (JsVal.val 0) count fb.numColorTargets
            (setLength fb.colorAttachmentTargets numColorTargets) }
    else fb
  let enums := fb.colorAttachmentEnums.set index (JsVal.val (COLOR_ATTACHMENT0 + index))
  let atts := fb.colorAttachments.set index (JsVal.val attachment)
  let targets := fb.colorAttachmentTargets.set index (JsVal.val target)
  let attachCall :=
    if attachment.isRenderbuffer then
      GLCall.framebufferRenderbuffer (COLOR_ATTACHMENT0 + index) attachment.handle
    else if attachment.is3D then
      GLCall.framebufferTextureLayer (COLOR_ATTACHMENT0 + index) attachment.handle target
    else
      GLCall.framebufferTexture2D (COLOR_ATTACHMENT0 + index) target attachment.handle
  ({ fb with
      colorAttachmentEnums := enums
      colorAttachments := atts
      colorAttachmentTargets := targets
      width := attachment.width
      height := attachment.height },
    Framebuffer.bindAndCaptureState fb current ++
      [attachCall, GLCall.drawBuffers enums] ++
      Framebuffer.restoreState fb current)

/-- Embedding of `Framebuffer.delete()`: release the handle, then clear
the draw and read cache slots (rebinding null) where this framebuffer is
recorded. -/
def Framebuffer.delete (fb : Framebuffer) (st : AppState) :
    Framebuffer × AppState × List GLCall :=
  match fb.framebuffer with
  | some handle =>
      let fb := { fb with framebuffer := none }
      let st1 :=
        if st.drawFramebuffer = some fb.id then { st with drawFramebuffer := none } else st
      let calls1 :=
        if st.drawFramebuffer = some fb.id then
          [GLCall.bindFramebuffer DRAW_FRAMEBUFFER none] else []
      let st2 :=
        if st1.readFramebuffer = some fb.id then { st1 with readFramebuffer := none } else st1
      let calls2 :=
        if st1.readFramebuffer = some fb.id then
          [GLCall.bindFramebuffer READ_FRAMEBUFFER none] else []
      (fb, st2, GLCall.deleteFramebuffer handle :: (calls1 ++ calls2))
  | none => (fb, st, [])

/-- Embedding of `Framebuffer.bindForDraw()`. -/
def Framebuffer.bindForDraw (fb : Framebuffer) (st : AppState) : AppState × List GLCall :=
  if st.drawFramebuffer = some fb.id then (st, [])
  else ({ st with drawFramebuffer := some fb.id },
    [GLCall.bindFramebuffer DRAW_FRAMEBUFFER fb.framebuffer])

/-- Embedding of `Framebuffer.bindForRead()`. -/
def Framebuffer.bindForRead (fb : Framebuffer) (st : AppState) : AppState × List GLCall :=
  if st.readFramebuffer = some fb.id then (st, [])
  else ({ st with readFramebuffer := some fb.id },
    [GLCall.bindFramebuffer READ_FRAMEBUFFER fb.framebuffer])

/-- Discriminator for `drawBuffers` calls in a native-call trace. -/
def GLCall.isDrawBuffers : GLCall → Bool
  | GLCall.drawBuffers _ => true
  | _ => false

/-- A freshly constructed Framebuffer (constructor state after
`restore()` allocated handle `h`): no attachments, zero size. -/
def freshFramebuffer (i h : Nat) : Framebuffer :=
  { id := i
    framebuffer := some h
    numColorTargets := 0
    colorAttachments := []
    colorAttachmentEnums := []
    colorAttachmentTargets := []
    depthAttachment := JsVal.null
    width := 0
    height := 0 }

/-! ## Query (query.js) -/

structure Query where
  query : Option Nat
  target : Nat
  active : Bool
  result : Option Nat
  deriving DecidableEq, Repr

/-- Embedding of `Query.begin()`. -/
def Query.begin (q : Query) : Query × List GLCall :=
  if q.active then (q, [])
  else ({ q with result := none }, [GLCall.beginQuery q.target])

/-- Embedding of `Query.end()` (named `end'` because `end` is reserved
in Lean). -/
def Query.end' (q : Query) : Query × List GLCall :=
  if q.active then (q, [])
  else ({ q with active := true }, [GLCall.endQuery q.target])

/-- Embedding of `Query.ready()`: `available` is the answer of the device to
the QUERY_RESULT_AVAILABLE parameter query and `value` the numeric
QUERY_RESULT it would report.  On the first call where the query is
active and the device reports availability, latch the result, clear the
active flag and return true; otherwise return false and change
nothing. -/
def Query.ready (q : Query) (available : Bool) (value : Nat) : Query × Bool :=
  if q.active && available then
    ({ q with active := false, result := some value }, true)
  else (q, false)

/-- Run a sequence of `ready()` polls; each list element supplies the
availability flag reported by the device and the result value for that poll.  Returns the
final query state and the list of returned booleans. -/
def readyRun (q : Query) : List (Bool × Nat) → Query × List Bool
  | [] => (q, [])
  | step :: rest =>
      let r := Query.ready q step.1 step.2
      let next := readyRun r.1 rest
      (next.1, r.2 :: next.2)

/-! ## DrawCall staged uniforms (draw-call.js) -/

/-- The staged-uniform state of a DrawCall: the memoization table
`uniformIndices` (a JavaScript object) and the fixed-size `uniformNames`
and `uniformValues` arrays, modelled as maps with `none` for
undefined cells, plus `uniformCount`. -/
structure DrawCall where
  uniformIndices : String → Option Nat
  uniformNames : Nat → Option String
  uniformValues : Nat → Option Int
  uniformCount : Nat

/-- Embedding of `DrawCall.uniform(name, value)`: look up the memoized
slot index; on a miss allocate the next slot, record the name→index
mapping and the name; in both cases store the value at the slot. -/
def DrawCall.uniform (dc : DrawCall) (name : String) (value : Int) : DrawCall :=
  match dc.uniformIndices name with
  | some index => { dc with uniformValues := updFn dc.uniformValues index (some value) }
  | none =>
      let index := dc.uniformCount
      { dc with
        uniformCount := index + 1
        uniformIndices := updFn dc.uniformIndices name (some index)
        uniformNames := updFn dc.uniformNames index (some name)
        uniformValues := updFn dc.uniformValues index (some value) }

/-- Well-formedness of the staged-uniform state, as maintained by
`DrawCall.uniform` from the freshly constructed DrawCall: the index table
and the names array are mutually inverse below `uniformCount`. -/
def DCWF (dc : DrawCall) : Prop :=
  (∀ n i, dc.uniformIndices n = some i →
      i < dc.uniformCount ∧ dc.uniformNames i = some n) ∧
  (∀ i, i < dc.uniformCount →
      ∃ n, dc.uniformNames i = some n ∧ dc.uniformIndices n = some i) ∧
  (∀ i, dc.uniformCount ≤ i → dc.uniformNames i = none)

/-- The staged-uniform state of a freshly constructed DrawCall: empty
index table, all-undefined arrays, count zero. -/
def emptyDrawCall : DrawCall :=
  { uniformIndices := fun _ => none
    uniformNames := fun _ => none
    uniformValues := fun _ => none
    uniformCount := 0 }

/-! ## Concrete instances used by witnesses and counterexamples -/

/-- A device state with one wrapper bound in every slot kind. -/
def st0 : AppState :=
  { program := some 1
    vertexArray := some 2
    transformFeedback := some 3
    activeTexture := -1
    textures := [some 4]
    uniformBuffers := [some 5]
    drawFramebuffer := some 6
    readFramebuffer := some 6 }

def p0 : Program := { id := 1, program := some 10, uniforms := [] }

def va0 : VertexArray :=
  { id := 2, vertexArray := some 11, numElements := 0, indexType := none
    instancedBuffers := 0, indexed := false, numInstances := 0 }

def tf0 : TransformFeedback :=
  { id := 3, transformFeedback := some 12, angleBugBuffers := [] }

def fb0 : Framebuffer := freshFramebuffer 6 13

def tex0 : Texture := { texture := some 14, currentUnit := 0, binding := TEXTURE_2D }

def ub0 : UniformBuffer :=
  { mkUniformBuffer [GLType.FLOAT] with buffer := some 15, currentBase := 0 }

/-- A world whose texture 4 is bound at unit 0 and whose uniform buffer
5 is bound at base 0, consistently with `st0`. -/
def w0 : World := { texs := fun _ => tex0, ubufs := fun _ => ub0, state := st0 }

/-- A world for the C3 counterexample: uniform buffer 1 is live
(handle 7) and bound at base 0, consistently recorded on both sides. -/
def c3World : World :=
  { texs := fun _ => { texture := none, currentUnit := -1, binding := TEXTURE_2D }
    ubufs := fun _ => { mkUniformBuffer [GLType.FLOAT] with buffer := some 7, currentBase := 0 }
    state :=
      { program := none, vertexArray := none, transformFeedback := none
        activeTexture := -1, textures := [], uniformBuffers := [some 1]
        drawFramebuffer := none, readFramebuffer := none } }

end PicoGL

namespace PicoGL

/-! ## Theorems -/

/-- Helper: a single layout-loop iteration places the entry at the
aligned running cursor (in the sense of the spec alignment rules) and
advances the cursor by the amended word count. -/
theorem ubItem_offset_advance (size : Nat) (t : GLType) :
    (ubItem size t).1.1 = alignTo (specBaseAlign t) size ∧
      (ubItem size t).2 = alignTo (specBaseAlign t) size + amendedAdvanceC2 t := by
  cases t <;>
    simp [ubItem, alignTo, specBaseAlign, amendedAdvanceC2, ubSelfType] <;>
    omega

/-- Helper: the constructor layout loop computes exactly the cursor and
offsets of the amended C2 recurrence, from any starting cursor. -/
theorem ubLoop_eq_amendedLoopC2 (layout : List GLType) : ∀ size : Nat,
    (ubLoop size layout).1 = (amendedLoopC2 size layout).1 ∧
      (ubLoop size layout).2.1 = (amendedLoopC2 size layout).2 := by
  induction layout with
  | nil => exact fun _ => ⟨rfl, rfl⟩
  | cons t rest ih =>
      intro size
      have h1 := (ubItem_offset_advance size t).1
      have h2 := (ubItem_offset_advance size t).2
      refine ⟨?_, ?_⟩
      · show (ubLoop (ubItem size t).2 rest).1 =
          (amendedLoopC2 (alignTo (specBaseAlign t) size + amendedAdvanceC2 t)
            rest).1
        rw [h2]
        exact (ih _).1
      · show (ubItem size t).1.1 :: (ubLoop (ubItem size t).2 rest).2.1 =
          alignTo (specBaseAlign t) size ::
            (amendedLoopC2 (alignTo (specBaseAlign t) size + amendedAdvanceC2 t)
              rest).2
        rw [h1, h2]
        exact congrArg _ (ih _).2

/-- C2: corrected.  The layout engine assigns each entry the aligned
running word cursor as its offset and then advances the cursor — but a
3-component vector advances the cursor by 4 words (it is grouped with the
4-component vectors), not by its component count 3.  With that amendment
(`amendedAdvanceC2`/`amendedLoopC2`), the offsets computed by the
UniformBuffer constructor coincide with the amended recurrence for every
declared layout and every starting cursor. -/
theorem C2_layout_advance (layout : List GLType) :
    (mkUniformBuffer layout).offsets = (amendedLoopC2 0 layout).2 ∧
      ∀ size : Nat, (ubLoop size layout).1 = (amendedLoopC2 size layout).1 := by
  constructor
  · show (ubLoop 0 layout).2.1 = _
    exact (ubLoop_eq_amendedLoopC2 layout 0).2
  · intro size
    exact (ubLoop_eq_amendedLoopC2 layout size).1

/-- C2 counterexample: for the layout `[FLOAT_VEC3, FLOAT]` the source
places the second entry at offset 4 (the VEC3 advanced the cursor by 4),
while the claim as stated (advance by the component count 3) predicts
offset 3. -/
theorem C2_counterexample :
    (mkUniformBuffer [GLType.FLOAT_VEC3, GLType.FLOAT]).offsets = [0, 4] ∧
      claimOffsetsC2 0 [GLType.FLOAT_VEC3, GLType.FLOAT] = [0, 3] ∧
      (mkUniformBuffer [GLType.FLOAT_VEC3, GLType.FLOAT]).offsets ≠
        claimOffsetsC2 0 [GLType.FLOAT_VEC3, GLType.FLOAT] := by
  refine ⟨rfl, rfl, ?_⟩
  decide

/-- C4: the code contradicts the claim (and its own doc comment, which
says the recorded base types range over FLOAT, INT and UNSIGNED_INT).
The constructor compares `this.type` — an undefined property — instead of
the local `type` against the UNSIGNED_INT constants, so every unsigned
integer entry records base type FLOAT and `set` writes it through the
float view of the backing store. -/
theorem C4_unsigned_int_records_float :
    (mkUniformBuffer [GLType.UNSIGNED_INT]).types = [BaseType.FLOAT] ∧
      (mkUniformBuffer [GLType.UNSIGNED_INT]).set 0 =
        some { view := BaseType.FLOAT, offset := 0, single := true } ∧
      (mkUniformBuffer [GLType.UNSIGNED_INT_VEC2]).types = [BaseType.FLOAT] ∧
      (mkUniformBuffer [GLType.UNSIGNED_INT_VEC4]).types = [BaseType.FLOAT] ∧
      (mkUniformBuffer [GLType.INT]).types = [BaseType.INT] := by
  exact ⟨rfl, rfl, rfl, rfl, rfl⟩

/-- C1 counterexample: calling `uniform` for a name that is not a
recognized active uniform does not report an error and be a no-op — it
throws a TypeError (the `.set` access on the `undefined` map entry) and
writes nothing to the diagnostic channel. -/
theorem C1_counterexample :
    Program.uniform { id := 0, program := some 1, uniforms := [] }
        "uNonExistent" 5 =
      { thrown := some JsError.typeError, calls := [], console := [] } := by
  exact rfl

/-- C1: corrected.  For every name that is not a recognized active
uniform of the linked Program, `Program.uniform(name, value)` raises a
TypeError instead of reporting to the diagnostic channel: the map lookup
yields `undefined`, the `.set` access throws, no native call is issued
and no console diagnostic is written (the program object itself is never
mutated by this method). -/
theorem C1_unknown_uniform_throws (p : Program) (name : String) (value : Int)
    (h : p.uniforms.lookup name = none) :
    Program.uniform p name value =
      { thrown := some JsError.typeError, calls := [], console := [] } := by
  unfold Program.uniform
  rw [h]

/-- C1 witness: the corrected statement applied to a program with no
active uniforms and the name from the spec scenario. -/
theorem C1_witness :
    ([] : List (String × Nat)).lookup "uNonExistent" = none ∧
      Program.uniform { id := 0, program := some 1, uniforms := [] }
          "uNonExistent" 5 =
        { thrown := some JsError.typeError, calls := [], console := [] } :=
  ⟨rfl, C1_unknown_uniform_throws
    { id := 0, program := some 1, uniforms := [] } "uNonExistent" 5 rfl⟩

/-- C5: confirmed.  The layout `[FLOAT, FLOAT_VEC4, FLOAT]` yields
offsets `[0, 4, 8]` and padded total size 12 words, and the layout
`[FLOAT_VEC2, FLOAT_VEC2]` yields offsets `[0, 2]` and padded total size
4 words. -/
theorem C5_layout_round_trip :
    (mkUniformBuffer [GLType.FLOAT, GLType.FLOAT_VEC4, GLType.FLOAT]).offsets
        = [0, 4, 8] ∧
      (mkUniformBuffer [GLType.FLOAT, GLType.FLOAT_VEC4, GLType.FLOAT]).size = 12 ∧
      (mkUniformBuffer [GLType.FLOAT_VEC2, GLType.FLOAT_VEC2]).offsets = [0, 2] ∧
      (mkUniformBuffer [GLType.FLOAT_VEC2, GLType.FLOAT_VEC2]).size = 4 := by
  exact ⟨rfl, rfl, rfl, rfl⟩


/-- C10: confirmed.  `VertexArray.indexBuffer(buffer)` sets the vertex
array field `numElements` to three times the item count of the buffer,
unconditionally overwriting any previously held element count, and sets
`indexed = true` and `indexType` to the type of the buffer. -/
theorem C10_indexBuffer_counts (va : VertexArray) (st : AppState)
    (vertexBuffer : VertexBuffer) (newHandle : Nat) :
    (VertexArray.indexBuffer va st vertexBuffer newHandle).1.numElements =
        vertexBuffer.numItems * 3 ∧
      (VertexArray.indexBuffer va st vertexBuffer newHandle).1.indexType =
        some vertexBuffer.type ∧
      (VertexArray.indexBuffer va st vertexBuffer newHandle).1.indexed = true := by
  refine ⟨?_, ?_, ?_⟩ <;> simp [VertexArray.indexBuffer]

/-- C6: confirmed.  For every wrapper kind and every slot, a bind of a
wrapper that the DeviceStateCache already records as bound to that slot
issues zero native calls and leaves the cache (and the whole wrapper
world) unchanged. -/
theorem C6_redundant_bind_elided :
    (∀ (p : Program) (st : AppState), st.program = some p.id →
        Program.bind p st = (st, [])) ∧
      (∀ (va : VertexArray) (st : AppState), st.vertexArray = some va.id →
        VertexArray.bind va st = (st, [])) ∧
      (∀ (tf : TransformFeedback) (st : AppState), st.transformFeedback = some tf.id →
        TransformFeedback.bind tf st = (st, [])) ∧
      (∀ (w : World) (i unit : Nat), cacheGet w.state.textures unit = some i →
        Texture.bind w i unit = (w, [])) ∧
      (∀ (w : World) (i base : Nat), cacheGet w.state.uniformBuffers base = some i →
        UniformBuffer.bind w i base = (w, [])) ∧
      (∀ (fb : Framebuffer) (st : AppState), st.drawFramebuffer = some fb.id →
        Framebuffer.bindForDraw fb st = (st, [])) ∧
      (∀ (fb : Framebuffer) (st : AppState), st.readFramebuffer = some fb.id →
        Framebuffer.bindForRead fb st = (st, [])) := by
  refine ⟨fun p st h => ?_, fun va st h => ?_, fun tf st h => ?_,
    fun w i unit h => ?_, fun w i base h => ?_, fun fb st h => ?_, fun fb st h => ?_⟩ <;>
    simp [Program.bind, VertexArray.bind, TransformFeedback.bind, Texture.bind,
      UniformBuffer.bind, Framebuffer.bindForDraw, Framebuffer.bindForRead, h]

/-- C6 witness: the idempotent-bind statement applied to one concrete
bound wrapper of each kind. -/
theorem C6_witness :
    (st0.program = some p0.id ∧ Program.bind p0 st0 = (st0, [])) ∧
      (st0.vertexArray = some va0.id ∧ VertexArray.bind va0 st0 = (st0, [])) ∧
      (st0.transformFeedback = some tf0.id ∧
        TransformFeedback.bind tf0 st0 = (st0, [])) ∧
      (cacheGet w0.state.textures 0 = some 4 ∧ Texture.bind w0 4 0 = (w0, [])) ∧
      (cacheGet w0.state.uniformBuffers 0 = some 5 ∧
        UniformBuffer.bind w0 5 0 = (w0, [])) ∧
      (st0.drawFramebuffer = some fb0.id ∧ Framebuffer.bindForDraw fb0 st0 = (st0, [])) ∧
      (st0.readFramebuffer = some fb0.id ∧ Framebuffer.bindForRead fb0 st0 = (st0, [])) :=
  ⟨⟨rfl, C6_redundant_bind_elided.1 p0 st0 rfl⟩,
    ⟨rfl, C6_redundant_bind_elided.2.1 va0 st0 rfl⟩,
    ⟨rfl, C6_redundant_bind_elided.2.2.1 tf0 st0 rfl⟩,
    ⟨rfl, C6_redundant_bind_elided.2.2.2.1 w0 4 0 rfl⟩,
    ⟨rfl, C6_redundant_bind_elided.2.2.2.2.1 w0 5 0 rfl⟩,
    ⟨rfl, C6_redundant_bind_elided.2.2.2.2.2.1 fb0 st0 rfl⟩,
    ⟨rfl, C6_redundant_bind_elided.2.2.2.2.2.2 fb0 st0 rfl⟩⟩

/-- Helper: polling an inactive query never fires and never changes it,
whatever the device reports. -/
theorem readyRun_inactive (trace : List (Bool × Nat)) : ∀ q : Query,
    q.active = false → readyRun q trace = (q, List.replicate trace.length false) := by
  induction trace with
  | nil => exact fun q _ => rfl
  | cons step rest ih =>
      intro q hq
      have hstep : Query.ready q step.1 step.2 = (q, false) := by
        simp [Query.ready, hq]
      simp [readyRun, hstep, ih q hq, List.replicate_succ]

/-- C9: confirmed.  After a begin/end cycle (the query is active), a run
of `ready()` polls returns false while the device reports the result
unavailable; the first poll where the device reports availability
returns true, latches the numeric result and clears the active flag, and
every later poll returns false — until a new begin/end cycle re-arms the
query. -/
theorem C9_ready_latch (q : Query) (pre post : List (Bool × Nat)) (v : Nat)
    (hq : q.active = true) (hpre : ∀ p ∈ pre, p.1 = false) :
    (readyRun q (pre ++ (true, v) :: post)).2 =
        List.replicate pre.length false ++ true :: List.replicate post.length false ∧
      (readyRun q (pre ++ (true, v) :: post)).1.active = false ∧
      (readyRun q (pre ++ (true, v) :: post)).1.result = some v ∧
      (Query.end' (Query.begin (readyRun q (pre ++ (true, v) :: post)).1).1).1.active
        = true := by
  induction pre with
  | nil =>
      have hfire : Query.ready q true v =
          ({ q with active := false, result := some v }, true) := by
        simp [Query.ready, hq]
      have hrest := readyRun_inactive post { q with active := false, result := some v } rfl
      refine ⟨?_, ?_, ?_, ?_⟩ <;>
        simp [readyRun, hfire, hrest, Query.begin, Query.end']
  | cons step rest ih =>
      have hstep1 : step.1 = false := hpre step (List.mem_cons_self step rest)
      have hstep : Query.ready q step.1 step.2 = (q, false) := by
        simp [Query.ready, hstep1]
      have htail := ih (fun p hp => hpre p (List.mem_cons_of_mem step hp))
      refine ⟨?_, ?_, ?_, ?_⟩ <;>
        simp [readyRun, hstep, htail.1, htail.2.1, htail.2.2.1, htail.2.2.2,
          List.replicate_succ]

/-- C9 witness: the latch statement on a concrete active query, one
unavailable poll, then an available poll reporting 7, then two more
polls. -/
theorem C9_witness :
    ({ query := some 1, target := 35007, active := true, result := none } : Query).active
        = true ∧
      (∀ p ∈ [((false : Bool), (0 : Nat))], p.1 = false) ∧
      ((readyRun { query := some 1, target := 35007, active := true, result := none }
          ([(false, 0)] ++ (true, 7) :: [(true, 9), (false, 2)])).2 =
          List.replicate 1 false ++ true :: List.replicate 2 false ∧
        (readyRun { query := some 1, target := 35007, active := true, result := none }
          ([(false, 0)] ++ (true, 7) :: [(true, 9), (false, 2)])).1.active = false ∧
        (readyRun { query := some 1, target := 35007, active := true, result := none }
          ([(false, 0)] ++ (true, 7) :: [(true, 9), (false, 2)])).1.result = some 7 ∧
        (Query.end' (Query.begin
          (readyRun { query := some 1, target := 35007, active := true, result := none }
            ([(false, 0)] ++ (true, 7) :: [(true, 9), (false, 2)])).1).1).1.active
          = true) :=
  ⟨rfl, by decide,
    C9_ready_latch { query := some 1, target := 35007, active := true, result := none }
      [(false, 0)] [(true, 9), (false, 2)] 7 rfl (by decide)⟩

/-- Helper: clearing a cache slot empties it (also when the index is out
of range, where the slot already reads empty). -/
theorem cacheGet_set_self (l : List (Option Nat)) : ∀ k : Nat,
    cacheGet (l.set k none) k = none := by
  induction l with
  | nil => intro k; cases k <;> rfl
  | cons x xs ih =>
      intro k
      cases k with
      | zero => rfl
      | succ k => simpa [cacheGet, List.getD] using ih k

/-- Helper: clearing one cache slot leaves every other slot unchanged. -/
theorem cacheGet_set_ne (l : List (Option Nat)) (a : Option Nat) : ∀ k u : Nat,
    k ≠ u → cacheGet (l.set k a) u = cacheGet l u := by
  induction l with
  | nil => intro k u _; cases k <;> rfl
  | cons x xs ih =>
      intro k u hne
      cases k with
      | zero =>
          cases u with
          | zero => exact absurd rfl hne
          | succ u => rfl
      | succ k =>
          cases u with
          | zero => rfl
          | succ u =>
              simpa [cacheGet, List.getD] using
                ih k u (fun h => hne (congrArg Nat.succ h))

/-- Helper (C3, Program): deleting a live program leaves no cache
reference to it. -/
theorem progDelete_clears (p : Program) (st : AppState) (hp : p.program.isSome) :
    (Program.delete p st).2.1.program ≠ some p.id := by
  cases hh : p.program with
  | none => simp [hh] at hp
  | some handle =>
      by_cases hb : st.program = some p.id <;> simp [Program.delete, hh, hb]

/-- Helper (C3, VertexArray). -/
theorem vaDelete_clears (va : VertexArray) (st : AppState)
    (hv : va.vertexArray.isSome) :
    (VertexArray.delete va st).2.1.vertexArray ≠ some va.id := by
  cases hh : va.vertexArray with
  | none => simp [hh] at hv
  | some handle =>
      by_cases hb : st.vertexArray = some va.id <;> simp [VertexArray.delete, hh, hb]

/-- Helper (C3, TransformFeedback). -/
theorem tfDelete_clears (tf : TransformFeedback) (st : AppState)
    (ht : tf.transformFeedback.isSome) :
    (TransformFeedback.delete tf st).2.1.transformFeedback ≠ some tf.id := by
  cases hh : tf.transformFeedback with
  | none => simp [hh] at ht
  | some handle =>
      by_cases hb : st.transformFeedback = some tf.id <;>
        simp [TransformFeedback.delete, hh, hb]

/-- Helper (C3, Framebuffer): both the draw and the read slot are
cleared. -/
theorem fbDelete_clears (fb : Framebuffer) (st : AppState)
    (hf : fb.framebuffer.isSome) :
    (Framebuffer.delete fb st).2.1.drawFramebuffer ≠ some fb.id ∧
      (Framebuffer.delete fb st).2.1.readFramebuffer ≠ some fb.id := by
  cases hh : fb.framebuffer with
  | none => simp [hh] at hf
  | some handle =>
      by_cases hd : st.drawFramebuffer = some fb.id <;>
        by_cases hr : st.readFramebuffer = some fb.id <;>
        simp [Framebuffer.delete, hh, hd, hr]

/-- Helper (C3, Texture): under the documented mutual back-reference
invariant, deleting a live texture clears every cache slot referencing it
and resets its own `currentUnit` to -1. -/
theorem texDelete_clears (w : World) (i : Nat)
    (hlive : (w.texs i).texture.isSome)
    (hinv1 : ∀ u : Nat, cacheGet w.state.textures u = some i →
      (w.texs i).currentUnit = (u : Int))
    (hinv2 : (w.texs i).currentUnit ≠ -1 →
      cacheGet w.state.textures (w.texs i).currentUnit.toNat = some i) :
    (∀ u : Nat, cacheGet (Texture.delete w i).1.state.textures u ≠ some i) ∧
      ((Texture.delete w i).1.texs i).currentUnit = -1 := by
  cases hh : (w.texs i).texture with
  | none => simp [hh] at hlive
  | some handle =>
      by_cases hcu : (w.texs i).currentUnit = -1
      · have hcond : ¬((w.texs i).currentUnit ≠ -1 ∧
            cacheGet w.state.textures (w.texs i).currentUnit.toNat = some i) := by
          simp [hcu]
        constructor
        · intro u hu
          have hst : (Texture.delete w i).1.state = w.state := by
            simp [Texture.delete, hh, hcond]
          rw [hst] at hu
          have := hinv1 u hu
          omega
        · simp [Texture.delete, hh, hcond, updFn, hcu]
      · have hslot := hinv2 hcu
        have hcond : ((w.texs i).currentUnit ≠ -1 ∧
            cacheGet w.state.textures (w.texs i).currentUnit.toNat = some i) :=
          ⟨hcu, hslot⟩
        have hnn : 0 ≤ (w.texs i).currentUnit := by
          rcases hinv1 (w.texs i).currentUnit.toNat hslot with h
          omega
        constructor
        · intro u
          have hst : (Texture.delete w i).1.state.textures =
              w.state.textures.set (w.texs i).currentUnit.toNat none := by
            simp [Texture.delete, hh, hcond]
          rw [hst]
          by_cases hu : (w.texs i).currentUnit.toNat = u
          · rw [← hu, cacheGet_set_self]
            simp
          · rw [cacheGet_set_ne _ _ _ _ hu]
            intro habs
            have := hinv1 u habs
            omega
        · simp [Texture.delete, hh, hcond, updFn]

/-- Helper (C3, UniformBuffer): under the documented mutual
back-reference invariant, deleting a live uniform buffer clears every
cache slot referencing it — but leaves the stale `currentBase`
unchanged. -/
theorem ubDelete_clears (w : World) (i : Nat)
    (hlive : (w.ubufs i).buffer.isSome)
    (hinv1 : ∀ b : Nat, cacheGet w.state.uniformBuffers b = some i →
      (w.ubufs i).currentBase = (b : Int))
    (hinv2 : (w.ubufs i).currentBase ≠ -1 →
      cacheGet w.state.uniformBuffers (w.ubufs i).currentBase.toNat = some i) :
    (∀ b : Nat, cacheGet (UniformBuffer.delete w i).1.state.uniformBuffers b ≠ some i) ∧
      ((UniformBuffer.delete w i).1.ubufs i).currentBase = (w.ubufs i).currentBase := by
  cases hh : (w.ubufs i).buffer with
  | none => simp [hh] at hlive
  | some handle =>
      by_cases hcb : (w.ubufs i).currentBase = -1
      · have hcond : ¬((w.ubufs i).currentBase ≠ -1 ∧
            cacheGet w.state.uniformBuffers (w.ubufs i).currentBase.toNat = some i) := by
          simp [hcb]
        constructor
        · intro b hb
          have hst : (UniformBuffer.delete w i).1.state = w.state := by
            simp [UniformBuffer.delete, hh, hcond]
          rw [hst] at hb
          have := hinv1 b hb
          omega
        · simp [UniformBuffer.delete, hh, hcond, updFn]
      · have hslot := hinv2 hcb
        have hcond : ((w.ubufs i).currentBase ≠ -1 ∧
            cacheGet w.state.uniformBuffers (w.ubufs i).currentBase.toNat = some i) :=
          ⟨hcb, hslot⟩
        constructor
        · intro b
          have hst : (UniformBuffer.delete w i).1.state.uniformBuffers =
              w.state.uniformBuffers.set (w.ubufs i).currentBase.toNat none := by
            simp [UniformBuffer.delete, hh, hcond]
          rw [hst]
          by_cases hb : (w.ubufs i).currentBase.toNat = b
          · rw [← hb, cacheGet_set_self]
            simp
          · rw [cacheGet_set_ne _ _ _ _ hb]
            intro habs
            have := hinv1 b habs
            omega
        · simp [UniformBuffer.delete, hh, hcond, updFn]

/-- C3: corrected.  After `delete()` on a live wrapper whose cache
back-references are consistent, no DeviceStateCache slot still
references the wrapper.  Texture also resets its own `currentUnit`
back-reference to -1; Program, VertexArray, TransformFeedback and
Framebuffer have no own binding-slot field (the cleared cache slot is the
whole binding state); UniformBuffer, however, leaves its `currentBase`
field unchanged — stale — even though the cache slot is cleared. -/
theorem C3_delete_unbinds :
    (∀ (p : Program) (st : AppState), p.program.isSome →
        (Program.delete p st).2.1.program ≠ some p.id) ∧
      (∀ (va : VertexArray) (st : AppState), va.vertexArray.isSome →
        (VertexArray.delete va st).2.1.vertexArray ≠ some va.id) ∧
      (∀ (tf : TransformFeedback) (st : AppState), tf.transformFeedback.isSome →
        (TransformFeedback.delete tf st).2.1.transformFeedback ≠ some tf.id) ∧
      (∀ (fb : Framebuffer) (st : AppState), fb.framebuffer.isSome →
        (Framebuffer.delete fb st).2.1.drawFramebuffer ≠ some fb.id ∧
          (Framebuffer.delete fb st).2.1.readFramebuffer ≠ some fb.id) ∧
      (∀ (w : World) (i : Nat), (w.texs i).texture.isSome →
        (∀ u : Nat, cacheGet w.state.textures u = some i →
          (w.texs i).currentUnit = (u : Int)) →
        ((w.texs i).currentUnit ≠ -1 →
          cacheGet w.state.textures (w.texs i).currentUnit.toNat = some i) →
        (∀ u : Nat, cacheGet (Texture.delete w i).1.state.textures u ≠ some i) ∧
          ((Texture.delete w i).1.texs i).currentUnit = -1) ∧
      (∀ (w : World) (i : Nat), (w.ubufs i).buffer.isSome →
        (∀ b : Nat, cacheGet w.state.uniformBuffers b = some i →
          (w.ubufs i).currentBase = (b : Int)) →
        ((w.ubufs i).currentBase ≠ -1 →
          cacheGet w.state.uniformBuffers (w.ubufs i).currentBase.toNat = some i) →
        (∀ b : Nat, cacheGet (UniformBuffer.delete w i).1.state.uniformBuffers b ≠ some i) ∧
          ((UniformBuffer.delete w i).1.ubufs i).currentBase = (w.ubufs i).currentBase) :=
  ⟨progDelete_clears, vaDelete_clears, tfDelete_clears, fbDelete_clears,
    texDelete_clears, ubDelete_clears⟩

/-- C3 counterexample: a live uniform buffer bound at base 0 (cache and
back-reference consistent); after `delete()` the cache slot is cleared
but the buffer keeps `currentBase = 0`, which does not read unbound
(-1) — the claim as stated fails for UniformBuffer. -/
theorem C3_counterexample :
    (c3World.ubufs 1).buffer = some 7 ∧
      cacheGet c3World.state.uniformBuffers 0 = some 1 ∧
      (c3World.ubufs 1).currentBase = 0 ∧
      cacheGet (UniformBuffer.delete c3World 1).1.state.uniformBuffers 0 = none ∧
      ((UniformBuffer.delete c3World 1).1.ubufs 1).currentBase = 0 ∧
      (0 : Int) ≠ -1 := by
  refine ⟨rfl, rfl, rfl, ?_, ?_, by decide⟩ <;> rfl

/-- C3 witness: the amended statement applied to one concrete live bound
wrapper of each kind. -/
theorem C3_witness :
    ((Program.delete p0 st0).2.1.program ≠ some p0.id) ∧
      ((VertexArray.delete va0 st0).2.1.vertexArray ≠ some va0.id) ∧
      ((TransformFeedback.delete tf0 st0).2.1.transformFeedback ≠ some tf0.id) ∧
      ((Framebuffer.delete fb0 st0).2.1.drawFramebuffer ≠ some fb0.id ∧
        (Framebuffer.delete fb0 st0).2.1.readFramebuffer ≠ some fb0.id) ∧
      ((∀ u : Nat, cacheGet (Texture.delete w0 4).1.state.textures u ≠ some 4) ∧
        ((Texture.delete w0 4).1.texs 4).currentUnit = -1) ∧
      ((∀ b : Nat, cacheGet (UniformBuffer.delete w0 5).1.state.uniformBuffers b ≠ some 5) ∧
        ((UniformBuffer.delete w0 5).1.ubufs 5).currentBase = (w0.ubufs 5).currentBase) :=
  ⟨C3_delete_unbinds.1 p0 st0 rfl,
    C3_delete_unbinds.2.1 va0 st0 rfl,
    C3_delete_unbinds.2.2.1 tf0 st0 rfl,
    C3_delete_unbinds.2.2.2.1 fb0 st0 rfl,
    C3_delete_unbinds.2.2.2.2.1 w0 4 rfl
      (fun u hu => by
        cases u with
        | zero => rfl
        | succ n => simp [cacheGet, st0, w0] at hu)
      (fun _ => rfl),
    C3_delete_unbinds.2.2.2.2.2 w0 5 rfl
      (fun b hb => by
        cases b with
        | zero => rfl
        | succ n => simp [cacheGet, st0, w0] at hb)
      (fun _ => rfl)⟩

/-- C7: confirmed.  Calling `colorTarget(2, tex)` on a framebuffer with
no prior attachments grows the attachment list to 3 entries where
indices 0 and 1 hold the "none" placeholders (NONE enum, null
attachment) and index 2 holds the attachment, and the full 3-element
draw-buffer enum list is declared to the device in exactly one
`drawBuffers` call — for every attachment and whatever framebuffer was
previously bound for draw. -/
theorem C7_colorTarget_growth (a : Attachment) (current : Option Framebuffer) :
    ((freshFramebuffer 0 1).colorTarget 2 a none current).1.numColorTargets = 3 ∧
      ((freshFramebuffer 0 1).colorTarget 2 a none current).1.colorAttachments =
        [JsVal.null, JsVal.null, JsVal.val a] ∧
      ((freshFramebuffer 0 1).colorTarget 2 a none current).1.colorAttachmentEnums =
        [JsVal.val NONE, JsVal.val NONE, JsVal.val (COLOR_ATTACHMENT0 + 2)] ∧
      (((freshFramebuffer 0 1).colorTarget 2 a none current).2.filter
          GLCall.isDrawBuffers) =
        [GLCall.drawBuffers
          [JsVal.val NONE, JsVal.val NONE, JsVal.val (COLOR_ATTACHMENT0 + 2)]] := by
  refine ⟨rfl, rfl, rfl, ?_⟩
  by_cases hc : current.map Framebuffer.id = some 0 <;>
    by_cases hr : a.isRenderbuffer <;>
      by_cases h3 : a.is3D <;>
        simp [Framebuffer.colorTarget, freshFramebuffer, setLength, fillFrom,
          Framebuffer.bindAndCaptureState, Framebuffer.restoreState,
          GLCall.isDrawBuffers, hc, hr, h3, List.filter_append]

/-- C8: confirmed.  For every well-formed DrawCall, calling
`uniform(name, v1)` then `uniform(name, v2)` leaves exactly one staged
uniform slot for that name, holding `v2`: the second call reuses the
memoized slot index of the first, `uniformCount` does not increase, and
no other slot carries the name. -/
theorem C8_uniform_overwrites (dc : DrawCall) (name : String) (v1 v2 : Int)
    (h : DCWF dc) :
    ∃ idx,
      (DrawCall.uniform dc name v1).uniformIndices name = some idx ∧
        (DrawCall.uniform (DrawCall.uniform dc name v1) name v2).uniformIndices name
          = some idx ∧
        (DrawCall.uniform (DrawCall.uniform dc name v1) name v2).uniformCount =
          (DrawCall.uniform dc name v1).uniformCount ∧
        (DrawCall.uniform (DrawCall.uniform dc name v1) name v2).uniformValues idx
          = some v2 ∧
        (DrawCall.uniform (DrawCall.uniform dc name v1) name v2).uniformNames idx
          = some name ∧
        ∀ j, (DrawCall.uniform (DrawCall.uniform dc name v1) name v2).uniformNames j
          = some name → j = idx := by
  obtain ⟨hwf1, hwf2, hwf3⟩ := h
  cases h0 : dc.uniformIndices name with
  | some j =>
      refine ⟨j, ?_, ?_, ?_, ?_, ?_, ?_⟩
      · simp [DrawCall.uniform, h0]
      · simp [DrawCall.uniform, h0]
      · simp [DrawCall.uniform, h0]
      · simp [DrawCall.uniform, h0, updFn]
      · simpa [DrawCall.uniform, h0] using (hwf1 name j h0).2
      · intro j' hj'
        have hnames : dc.uniformNames j' = some name := by
          simpa [DrawCall.uniform, h0] using hj'
        by_cases hlt : j' < dc.uniformCount
        · obtain ⟨n, hn1, hn2⟩ := hwf2 j' hlt
          rw [hnames] at hn1
          cases hn1
          rw [h0] at hn2
          exact (Option.some.inj hn2).symm
        · rw [hwf3 j' (Nat.le_of_not_lt hlt)] at hnames
          exact absurd hnames (by simp)
  | none =>
      refine ⟨dc.uniformCount, ?_, ?_, ?_, ?_, ?_, ?_⟩
      · simp [DrawCall.uniform, h0, updFn]
      · simp [DrawCall.uniform, h0, updFn]
      · simp [DrawCall.uniform, h0, updFn]
      · simp [DrawCall.uniform, h0, updFn]
      · simp [DrawCall.uniform, h0, updFn]
      · intro j' hj'
        have hnames : (if j' = dc.uniformCount then some name
            else dc.uniformNames j') = some name := by
          simpa [DrawCall.uniform, h0, updFn] using hj'
        by_cases hje : j' = dc.uniformCount
        · exact hje
        · rw [if_neg hje] at hnames
          by_cases hlt : j' < dc.uniformCount
          · obtain ⟨n, hn1, hn2⟩ := hwf2 j' hlt
            rw [hnames] at hn1
            cases hn1
            rw [h0] at hn2
            exact absurd hn2 (by simp)
          · rw [hwf3 j' (Nat.le_of_not_lt hlt)] at hnames
            exact absurd hnames (by simp)

/-- C8 witness: the overwrite statement applied to the freshly
constructed DrawCall with name "a" and values 1 then 2. -/
theorem C8_witness :
    DCWF emptyDrawCall ∧
      (∃ idx,
        (DrawCall.uniform emptyDrawCall "a" 1).uniformIndices "a" = some idx ∧
          (DrawCall.uniform (DrawCall.uniform emptyDrawCall "a" 1) "a" 2).uniformIndices
            "a" = some idx ∧
          (DrawCall.uniform (DrawCall.uniform emptyDrawCall "a" 1) "a" 2).uniformCount =
            (DrawCall.uniform emptyDrawCall "a" 1).uniformCount ∧
          (DrawCall.uniform (DrawCall.uniform emptyDrawCall "a" 1) "a" 2).uniformValues
            idx = some 2 ∧
          (DrawCall.uniform (DrawCall.uniform emptyDrawCall "a" 1) "a" 2).uniformNames
            idx = some "a" ∧
          ∀ j, (DrawCall.uniform (DrawCall.uniform emptyDrawCall "a" 1) "a" 2).uniformNames
            j = some "a" → j = idx) := by
  have hwf : DCWF emptyDrawCall :=
    ⟨fun n i hni => by simp [emptyDrawCall] at hni,
      fun i hi => by simp [emptyDrawCall] at hi,
      fun i _ => rfl⟩
  exact ⟨hwf, C8_uniform_overwrites emptyDrawCall "a" 1 2 hwf⟩

end PicoGL
